import Mathlib

/-!
Verification of the Ruistic interpreter (scanner, parser, environment,
tree-walking interpreter) against its natural-language specification.

The Rust sources are embedded shallowly:

* `f64` number payloads are modelled as `Rat`; every numeric literal in the
  programs verified here is a small integer, for which IEEE double arithmetic
  and rational arithmetic agree, and the division-by-zero check `right == 0.0`
  becomes the exact test `b = 0`.
* Rust strings are modelled as `List Char`; the scanner indexes its source
  with `chars().nth`, and for the ASCII programs considered here byte slices
  and char slices coincide.
* Loops in the Rust code are embedded as fuel-indexed recursive functions
  returning `Option`, with `none` meaning the fuel was exhausted; a loop that
  diverges in the source is one whose embedding returns `none` for every fuel.
* `eprintln!` diagnostics are accumulated in explicit error lists; the exact
  text of messages built with the `{:?}` debug formatter is abbreviated via
  `tokenDebug` (no claim depends on it).  Quoting apostrophes inside Rust
  message literals are elided.
-/

/-- Mirrors `TokenType` from src/ruistic/src/token.rs. -/
inductive TokenType where
  | LEFT_PAREN | RIGHT_PAREN | LEFT_BRACE | RIGHT_BRACE
  | COMMA | DOT | MINUS | PLUS | SEMICOLON | SLASH | STAR
  | BANG | BANG_EQUAL | EQUAL | EQUAL_EQUAL
  | GREATER | GREATER_EQUAL | LESS | LESS_EQUAL
  | IDENTIFIER | STRING | NUMBER
  | AND | CLASS | ELSE | FALSE | FUN | FOR | IF | NIL | OR
  | PRINT | RETURN | SUPER | THIS | TRUE | VAR | WHILE
  | EOF
deriving DecidableEq, Repr

/-- Mirrors `Value` from token.rs.  `Number(f64)` is modelled with `Rat`;
the constructors `String`/`Boolean` are renamed `Str`/`VBool` to avoid
clashing with the Lean types of the payloads. -/
inductive Value where
  | Number : Rat → Value
  | Str : String → Value
  | VBool : Bool → Value
  | Nil : Value
deriving DecidableEq, Repr

/-- Mirrors `Token` from token.rs (fields `t`, `lexeme`, `literal`, `line`). -/
structure Token where
  t : TokenType
  lexeme : String
  literal : Option Value
  line : Nat
deriving DecidableEq, Repr

/-! ## Scanner (src/ruistic/src/scanner.rs) -/

/-- Scanner state: fields `src`, `tokens`, `start`, `current`, `line` of
`struct Scanner`, plus the list of `eprintln!` diagnostics it has emitted. -/
structure ScanState where
  src : List Char
  tokens : List Token
  start : Nat
  current : Nat
  line : Nat
  errs : List String
deriving Repr

/-- Mirrors `Scanner::peek`: `'\0'` at end of input, else the current char. -/
def peekC (src : List Char) (cur : Nat) : Char :=
  if cur ≥ src.length then Char.ofNat 0 else src.getD cur (Char.ofNat 0)

/-- Mirrors `Scanner::peek_next`. -/
def peekNextC (src : List Char) (cur : Nat) : Char :=
  if cur + 1 ≥ src.length then Char.ofNat 0 else src.getD (cur + 1) (Char.ofNat 0)

/-- Mirrors `Scanner::advance`: reads `chars().nth(current).unwrap_or('\0')`
and increments `current` (with no end-of-input guard, exactly as the source). -/
def advanceC (src : List Char) (cur : Nat) : Char × Nat :=
  (src.getD cur (Char.ofNat 0), cur + 1)

/-- Mirrors `Scanner::match_char`: on a mismatch (or at end of input) it
returns `false` *without advancing*. -/
def matchCharB (src : List Char) (cur : Nat) (expected : Char) : Bool × Nat :=
  if cur ≥ src.length then (false, cur)
  else if src.getD cur (Char.ofNat 0) ≠ expected then (false, cur)
  else (true, cur + 1)

/-- The slice `src[a..b]` of the source text. -/
def sliceL (src : List Char) (a b : Nat) : List Char :=
  (src.drop a).take (b - a)

/-- Mirrors `Scanner::add_token`: lexeme is `src[start..current]`. -/
def addTokenS (st : ScanState) (t : TokenType) (v : Option Value) : ScanState :=
  { st with tokens :=
      st.tokens ++ [⟨t, String.mk (sliceL st.src st.start st.current), v, st.line⟩] }

/-- Mirrors `Scanner::add_null_token`. -/
def addNullS (st : ScanState) (t : TokenType) : ScanState :=
  addTokenS st t none

/-- The `KEYWORDS` map of scanner.rs as a total function. -/
def keywordType (s : String) : TokenType :=
  if s = "and" then .AND
  else if s = "class" then .CLASS
  else if s = "else" then .ELSE
  else if s = "false" then .FALSE
  else if s = "fun" then .FUN
  else if s = "for" then .FOR
  else if s = "if" then .IF
  else if s = "nil" then .NIL
  else if s = "or" then .OR
  else if s = "print" then .PRINT
  else if s = "return" then .RETURN
  else if s = "super" then .SUPER
  else if s = "this" then .THIS
  else if s = "true" then .TRUE
  else if s = "var" then .VAR
  else if s = "while" then .WHILE
  else .IDENTIFIER

/-- The loop of `Scanner::string`:
`while peek != '"' { if peek == '\n' { line += 1 } advance }`.
Note the loop condition never tests for end of input; past the end `peek`
is `'\0'`, so the loop keeps advancing.  Returns `(current, line)` on exit. -/
def stringLoopF : Nat → List Char → Nat → Nat → Option (Nat × Nat)
  | 0, _, _, _ => none
  | f + 1, src, cur, line =>
    if peekC src cur ≠ '\"' then
      stringLoopF f src (cur + 1) (if peekC src cur = '\n' then line + 1 else line)
    else some (cur, line)

/-- Mirrors `Scanner::string` (including the post-loop unterminated-string
check, which the loop shape makes unreachable). -/
def stringF (fuel : Nat) (st : ScanState) : Option ScanState :=
  match stringLoopF fuel st.src st.current st.line with
  | none => none
  | some (cur, line) =>
    let st := { st with current := cur, line := line }
    if st.current ≥ st.src.length then
      -- Err("Unterminated string.") is printed by the caller's match arm
      some { st with errs := st.errs ++ ["Unterminated string."] }
    else
      let st := { st with current := st.current + 1 }
      let lit := Value.Str (String.mk (sliceL st.src (st.start + 1) (st.current - 1)))
      some (addTokenS st .STRING (some lit))

/-- The loop of `Scanner::identifier`.  `is_alphanumeric` is modelled by
`Char.isAlphanum` (the sources considered are ASCII). -/
def identLoopF : Nat → List Char → Nat → Option Nat
  | 0, _, _ => none
  | f + 1, src, cur =>
    if (peekC src cur).isAlphanum || peekC src cur = '_' then
      identLoopF f src (cur + 1)
    else some cur

/-- Mirrors `Scanner::identifier`. -/
def identifierF (fuel : Nat) (st : ScanState) : Option ScanState :=
  match identLoopF fuel st.src st.current with
  | none => none
  | some cur =>
    let st := { st with current := cur }
    some (addTokenS st (keywordType (String.mk (sliceL st.src st.start st.current))) none)

/-- Digit-run loop used by `Scanner::number` (`while peek.is_numeric`). -/
def numLoopF : Nat → List Char → Nat → Option Nat
  | 0, _, _ => none
  | f + 1, src, cur =>
    if (peekC src cur).isDigit then numLoopF f src (cur + 1) else some cur

/-- Value of a run of decimal digits. -/
def digitsVal (l : List Char) : Nat :=
  l.foldl (fun a c => a * 10 + (c.toNat - 48)) 0

/-- Models `str::parse::<f64>` on the literals the scanner produces
(digits, optionally a dot and more digits); exact as a rational.  Integer
literals — the only kind occurring in the programs verified here — take
the first branch, a plain cast. -/
def parseNumLit (l : List Char) : Rat :=
  let ip := l.takeWhile (fun c => c ≠ '.')
  let fp := ((l.dropWhile (fun c => c ≠ '.')).drop 1)
  if fp.length = 0 then (digitsVal ip : Rat)
  else (digitsVal ip : Rat) + (digitsVal fp : Rat) / ((10 : Rat) ^ fp.length)

/-- Mirrors `Scanner::number`. -/
def numberF (fuel : Nat) (st : ScanState) : Option ScanState :=
  match numLoopF fuel st.src st.current with
  | none => none
  | some cur =>
    let st := { st with current := cur }
    match (if peekC st.src st.current = '.' ∧ (peekNextC st.src st.current).isDigit then
             numLoopF fuel st.src (st.current + 1)
           else some st.current) with
    | none => none
    | some cur2 =>
      let st := { st with current := cur2 }
      let lit := Value.Number (parseNumLit (sliceL st.src st.start st.current))
      some (addTokenS st .NUMBER (some lit))

/-- The line-comment loop of `Scanner::scan_token`:
`while !match_char('\n') { if match_char('\n') { line += 1; break } }`.
`match_char` does not advance on a mismatch, so when the character under the
cursor is not a newline (or input has ended) the state never changes. -/
def lineCommentLoopF : Nat → List Char → Nat → Nat → Option (Nat × Nat)
  | 0, _, _, _ => none
  | f + 1, src, cur, line =>
    let m := matchCharB src cur '\n'
    if m.1 then some (m.2, line)
    else
      let m2 := matchCharB src m.2 '\n'
      if m2.1 then some (m2.2, line + 1)
      else lineCommentLoopF f src m2.2 line

/-- The block-comment loop of `Scanner::scan_token`.  Each iteration ends
with an unconditional `advance()`; the `*/` and `/*` branches advance twice
more, so they consume three characters in total.  The `Bool` is true when
the loop hit end of input with the comment still open (the
"Unterminated block comment" diagnostic). -/
def blockCommentLoopF : Nat → List Char → Nat → Nat → Nat → Option (Nat × Nat × Bool)
  | 0, _, _, _, _ => none
  | f + 1, src, cur, line, depth =>
    if depth = 0 then some (cur, line, false)
    else if cur ≥ src.length then some (cur, line, true)
    else if peekC src cur = '\n' then
      blockCommentLoopF f src (cur + 1) (line + 1) depth
    else if peekC src cur = '*' ∧ peekNextC src cur = '/' then
      blockCommentLoopF f src (cur + 3) line (depth - 1)
    else if peekC src cur = '/' ∧ peekNextC src cur = '*' then
      blockCommentLoopF f src (cur + 3) line (depth + 1)
    else
      blockCommentLoopF f src (cur + 1) line depth

/-- Mirrors `Scanner::scan_token` (the big `match` is an if-chain; the brace
characters are written via `Char.ofNat` 123/125). -/
def scanTokenF (fuel : Nat) (st : ScanState) : Option ScanState :=
  let a := advanceC st.src st.current
  let c := a.1
  let st := { st with current := a.2 }
  if c = '(' then some (addNullS st .LEFT_PAREN)
  else if c = ')' then some (addNullS st .RIGHT_PAREN)
  else if c = Char.ofNat 123 then some (addNullS st .LEFT_BRACE)
  else if c = Char.ofNat 125 then some (addNullS st .RIGHT_BRACE)
  else if c = ',' then some (addNullS st .COMMA)
  else if c = '.' then some (addNullS st .DOT)
  else if c = '-' then some (addNullS st .MINUS)
  else if c = '+' then some (addNullS st .PLUS)
  else if c = ';' then some (addNullS st .SEMICOLON)
  else if c = '/' then
    let m := matchCharB st.src st.current '/'
    if m.1 then
      match lineCommentLoopF fuel st.src m.2 st.line with
      | none => none
      | some (cur, line) => some { st with current := cur, line := line }
    else
      let m2 := matchCharB st.src st.current '*'
      if m2.1 then
        match blockCommentLoopF fuel st.src m2.2 st.line 1 with
        | none => none
        | some (cur, line, unterminated) =>
          if unterminated then
            some { st with current := cur, line := line, errs := st.errs ++ ["Unterminated block comment"] }
          else some { st with current := cur, line := line }
      else some (addNullS st .SLASH)
  else if c = '*' then some (addNullS st .STAR)
  else if c = '!' then
    let m := matchCharB st.src st.current '='
    if m.1 then some (addNullS { st with current := m.2 } .BANG_EQUAL)
    else some (addNullS st .BANG)
  else if c = '=' then
    let m := matchCharB st.src st.current '='
    if m.1 then some (addNullS { st with current := m.2 } .EQUAL_EQUAL)
    else some (addNullS st .EQUAL)
  else if c = '<' then
    let m := matchCharB st.src st.current '='
    if m.1 then some (addNullS { st with current := m.2 } .LESS_EQUAL)
    else some (addNullS st .LESS)
  else if c = '>' then
    let m := matchCharB st.src st.current '='
    if m.1 then some (addNullS { st with current := m.2 } .GREATER_EQUAL)
    else some (addNullS st .GREATER)
  else if c = ' ' ∨ c = '\r' ∨ c = '\t' then some st
  else if c = '\n' then some { st with line := st.line + 1 }
  else if c = '\"' then stringF fuel st
  else if c.isAlpha ∨ c = '_' then identifierF fuel { st with start := st.current - 1 }
  else if c.isDigit then numberF fuel { st with start := st.current - 1 }
  else some { st with errs := st.errs ++ ["Unrecognized character: " ++ c.toString] }

/-- The loop of `Scanner::scan_tokens`: `while !is_at_end { start = current; scan_token() }`. -/
def scanLoopF : Nat → ScanState → Option ScanState
  | 0, _ => none
  | f + 1, st =>
    if st.current ≥ st.src.length then some st
    else
      match scanTokenF f { st with start := st.current } with
      | none => none
      | some st' => scanLoopF f st'

/-- Mirrors `Scanner::scan_tokens`: runs the scan loop from a fresh scanner
state and appends the final EOF token. -/
def scanTokensF (fuel : Nat) (src : List Char) : Option (List Token) :=
  match scanLoopF fuel { src := src, tokens := [], start := 0, current := 0, line := 1, errs := [] } with
  | none => none
  | some st => some (st.tokens ++ [⟨.EOF, "", none, st.line⟩])

/-! ## AST (src/ruistic/src/expression.rs, statement.rs) -/

/-- Mirrors `Expr` from expression.rs. -/
inductive Expr where
  | Literal : Value → Expr
  | Unary : Token → Expr → Expr
  | Binary : Expr → Token → Expr → Expr
  | Grouping : Expr → Expr
  | Variable : Token → Expr
  | Assign : Token → Expr → Expr
deriving DecidableEq, Repr

/-- Mirrors `Stmt` from statement.rs (`Stmt::Expr` is renamed `ExprStmt` to
avoid clashing with the type `Expr`). -/
inductive Stmt where
  | ExprStmt : Expr → Stmt
  | Print : Expr → Stmt
  | Var : Token → Option Expr → Stmt
  | Block : List Stmt → Stmt
  | If : Expr → Stmt → Option Stmt → Stmt
  | While : Expr → Stmt → Stmt
deriving Repr

/-! ## Parser (src/ruistic/src/parser.rs)

The parser state is the token list plus the cursor `pos`.  Each parsing
function returns `ok value newPos` or `err message newPos` (the `Err` path
of the Rust `Result`, with the cursor wherever the mutation left it),
wrapped in `Option` for fuel. -/

/-- Result of a parsing function: the Rust `Result<T, String>` together with
the cursor position the `&mut self` methods left behind. -/
inductive PRes (α : Type) where
  | ok : α → Nat → PRes α
  | err : String → Nat → PRes α
deriving DecidableEq, Repr

/-- Mirrors `Parser::is_at_end`. -/
def isAtEndP (toks : List Token) (pos : Nat) : Bool :=
  decide (pos ≥ toks.length)

/-- A placeholder token; it is never reached for the nonempty,
EOF-terminated token lists the scanner produces. -/
def dummyTok : Token := ⟨.EOF, "", none, 0⟩

/-- Mirrors `Parser::peek` (falls back to the last token at end of input). -/
def peekT (toks : List Token) (pos : Nat) : Token :=
  if pos < toks.length then toks.getD pos dummyTok else toks.getLastD dummyTok

/-- The token `Parser::previous` returns when `pos > 0`.  (`previous` panics
at `pos = 0`; the panic is modelled where it is reachable, in `syncF`.) -/
def prevT (toks : List Token) (pos : Nat) : Token :=
  toks.getD (pos - 1) dummyTok

/-- Mirrors `Parser::check` (false at end of input). -/
def checkT (toks : List Token) (pos : Nat) (tt : TokenType) : Bool :=
  if isAtEndP toks pos then false else (peekT toks pos).t = tt

/-- Mirrors `Parser::match_token_types`: advances past the first matching
token type; returns whether it matched and the new position. -/
def matchTTs (toks : List Token) (pos : Nat) (tts : List TokenType) : Bool × Nat :=
  if tts.any (fun tt => checkT toks pos tt) then (true, pos + 1) else (false, pos)

/-- Mirrors `Parser::consume`. -/
def consumeT (toks : List Token) (pos : Nat) (expected : TokenType) (msg : String) : PRes Token :=
  if checkT toks pos expected then .ok (peekT toks pos) (pos + 1)
  else .err (msg ++ " at line " ++ toString (peekT toks pos).line) pos

/-- The statement-start token set of `Parser::synchronize`. -/
def isSyncStart (tt : TokenType) : Bool :=
  match tt with
  | .CLASS | .FUN | .VAR | .FOR | .IF | .WHILE | .PRINT | .RETURN => true
  | _ => false

/-- Result of `Parser::synchronize`: either a new cursor position, or the
panic that `previous()` raises when the cursor is still at position 0. -/
inductive SyncRes where
  | panicked : SyncRes
  | done : Nat → SyncRes
deriving DecidableEq, Repr

/-- Mirrors `Parser::synchronize`.  Inside the loop it first calls
`previous()`, which panics when `pos = 0`. -/
def syncF : Nat → List Token → Nat → Option SyncRes
  | 0, _, _ => none
  | f + 1, toks, pos =>
    if isAtEndP toks pos then some (.done pos)
    else if pos = 0 then some .panicked
    else if (prevT toks pos).t = .SEMICOLON then some (.done pos)
    else if isSyncStart (peekT toks pos).t then some (.done pos)
    else syncF f toks (pos + 1)

/-- Request type for the defunctionalised parser: one constructor per
`Parser` method (plus one per `while` loop inside a method), carrying the
cursor position and any accumulator.  The mutually recursive methods of
parser.rs are embedded as the single fuel-indexed function `parseRunF`
below, so that the recursion is structural in the fuel and hence
computable by the kernel; each constructor's case in `parseRunF` mirrors
the body of the correspondingly named Rust method. -/
inductive PReq where
  | expression (pos : Nat)
  | assignment (pos : Nat)
  | equality (pos : Nat)
  | equalityLoop (pos : Nat) (e : Expr)
  | comparison (pos : Nat)
  | comparisonLoop (pos : Nat) (e : Expr)
  | term (pos : Nat)
  | termLoop (pos : Nat) (e : Expr)
  | factor (pos : Nat)
  | factorLoop (pos : Nat) (e : Expr)
  | unary (pos : Nat)
  | primary (pos : Nat)
  | declaration (pos : Nat)
  | varDeclaration (pos : Nat)
  | statement (pos : Nat)
  | ifStatement (pos : Nat)
  | printStatement (pos : Nat)
  | forStatement (pos : Nat)
  | whileStatement (pos : Nat)
  | exprStatement (pos : Nat)
  | blockLoop (pos : Nat) (acc : List Stmt)

/-- Answer of a parser request: the result type of the corresponding
Rust method. -/
inductive PAns where
  | expr : PRes Expr → PAns
  | stmt : PRes Stmt → PAns
  | stmts : PRes (List Stmt) → PAns

/-- Projects an answer expected to be an expression result. -/
def asExpr : Option PAns → Option (PRes Expr)
  | some (.expr r) => some r
  | _ => none

/-- Projects an answer expected to be a statement result. -/
def asStmt : Option PAns → Option (PRes Stmt)
  | some (.stmt r) => some r
  | _ => none

/-- Projects an answer expected to be a statement-list result. -/
def asStmts : Option PAns → Option (PRes (List Stmt))
  | some (.stmts r) => some r
  | _ => none

/-- The defunctionalised recursive-descent parser; each `PReq` case mirrors
the Rust `Parser` method of the same name (see the comments in the cases
for source subtleties). -/
def parseRunF : Nat → List Token → PReq → Option PAns
  | 0, _, _ => none
  | f + 1, toks, req =>
    match req with
    | .expression pos =>
      -- Parser::expression
      parseRunF f toks (.assignment pos)
    | .assignment pos =>
      -- Parser::assignment
      match asExpr (parseRunF f toks (.equality pos)) with
      | none => none
      | some (.err m p) => some (.expr (.err m p))
      | some (.ok e p) =>
        let m := matchTTs toks p [.EQUAL]
        if m.1 then
          let equals := prevT toks m.2
          match asExpr (parseRunF f toks (.assignment m.2)) with
          | none => none
          | some (.err msg p2) => some (.expr (.err msg p2))
          | some (.ok v p2) =>
            match e with
            | .Variable name => some (.expr (.ok (.Assign name v) p2))
            | _ => some (.expr (.err ("Invalid assignment target at line " ++ toString equals.line) p2))
        else some (.expr (.ok e p))
    | .equality pos =>
      -- Parser::equality
      match asExpr (parseRunF f toks (.comparison pos)) with
      | none => none
      | some (.err m p) => some (.expr (.err m p))
      | some (.ok e p) => parseRunF f toks (.equalityLoop p e)
    | .equalityLoop pos e =>
      -- the while match([BANG_EQUAL, EQUAL_EQUAL]) loop of Parser::equality
      let m := matchTTs toks pos [.BANG_EQUAL, .EQUAL_EQUAL]
      if m.1 then
        let op := prevT toks m.2
        match asExpr (parseRunF f toks (.comparison m.2)) with
        | none => none
        | some (.err msg p) => some (.expr (.err msg p))
        | some (.ok r p) => parseRunF f toks (.equalityLoop p (.Binary e op r))
      else some (.expr (.ok e pos))
    | .comparison pos =>
      -- Parser::comparison
      match asExpr (parseRunF f toks (.term pos)) with
      | none => none
      | some (.err m p) => some (.expr (.err m p))
      | some (.ok e p) => parseRunF f toks (.comparisonLoop p e)
    | .comparisonLoop pos e =>
      -- the comparison-operator loop of Parser::comparison
      let m := matchTTs toks pos [.GREATER, .GREATER_EQUAL, .LESS, .LESS_EQUAL]
      if m.1 then
        let op := prevT toks m.2
        match asExpr (parseRunF f toks (.term m.2)) with
        | none => none
        | some (.err msg p) => some (.expr (.err msg p))
        | some (.ok r p) => parseRunF f toks (.comparisonLoop p (.Binary e op r))
      else some (.expr (.ok e pos))
    | .term pos =>
      -- Parser::term
      match asExpr (parseRunF f toks (.factor pos)) with
      | none => none
      | some (.err m p) => some (.expr (.err m p))
      | some (.ok e p) => parseRunF f toks (.termLoop p e)
    | .termLoop pos e =>
      -- the while match([MINUS, PLUS]) loop of Parser::term
      let m := matchTTs toks pos [.MINUS, .PLUS]
      if m.1 then
        let op := prevT toks m.2
        match asExpr (parseRunF f toks (.factor m.2)) with
        | none => none
        | some (.err msg p) => some (.expr (.err msg p))
        | some (.ok r p) => parseRunF f toks (.termLoop p (.Binary e op r))
      else some (.expr (.ok e pos))
    | .factor pos =>
      -- Parser::factor
      match asExpr (parseRunF f toks (.unary pos)) with
      | none => none
      | some (.err m p) => some (.expr (.err m p))
      | some (.ok e p) => parseRunF f toks (.factorLoop p e)
    | .factorLoop pos e =>
      -- the while match([SLASH, STAR]) loop of Parser::factor
      let m := matchTTs toks pos [.SLASH, .STAR]
      if m.1 then
        let op := prevT toks m.2
        match asExpr (parseRunF f toks (.unary m.2)) with
        | none => none
        | some (.err msg p) => some (.expr (.err msg p))
        | some (.ok r p) => parseRunF f toks (.factorLoop p (.Binary e op r))
      else some (.expr (.ok e pos))
    | .unary pos =>
      -- Parser::unary
      let m := matchTTs toks pos [.BANG, .MINUS]
      if m.1 then
        let op := prevT toks m.2
        match asExpr (parseRunF f toks (.unary m.2)) with
        | none => none
        | some (.err msg p) => some (.expr (.err msg p))
        | some (.ok r p) => some (.expr (.ok (.Unary op r) p))
      else parseRunF f toks (.primary pos)
    | .primary pos =>
      -- Parser::primary, including the fall-through when a NUMBER or STRING
      -- token carries an unexpected literal payload (the cursor stays
      -- advanced past the matched token, exactly as in the source)
      let m1 := matchTTs toks pos [.FALSE]
      if m1.1 then some (.expr (.ok (.Literal (.VBool false)) m1.2))
      else
      let m2 := matchTTs toks pos [.TRUE]
      if m2.1 then some (.expr (.ok (.Literal (.VBool true)) m2.2))
      else
      let m3 := matchTTs toks pos [.NIL]
      if m3.1 then some (.expr (.ok (.Literal .Nil) m3.2))
      else
      let m4 := matchTTs toks pos [.NUMBER]
      let pos4 := m4.2
      match (if m4.1 then (prevT toks pos4).literal else none) with
      | some (.Number n) => some (.expr (.ok (.Literal (.Number n)) pos4))
      | _ =>
        let m5 := matchTTs toks pos4 [.STRING]
        let pos5 := m5.2
        match (if m5.1 then (prevT toks pos5).literal else none) with
        | some (.Str s) => some (.expr (.ok (.Literal (.Str s)) pos5))
        | _ =>
          let m6 := matchTTs toks pos5 [.LEFT_PAREN]
          if m6.1 then
            match asExpr (parseRunF f toks (.expression m6.2)) with
            | none => none
            | some (.err msg p) => some (.expr (.err msg p))
            | some (.ok e p) =>
              match consumeT toks p .RIGHT_PAREN "Expect ) after expression." with
              | .ok _ p2 => some (.expr (.ok (.Grouping e) p2))
              | .err msg p2 => some (.expr (.err msg p2))
          else
            let m7 := matchTTs toks pos5 [.IDENTIFIER]
            if m7.1 then some (.expr (.ok (.Variable (prevT toks m7.2)) m7.2))
            else some (.expr (.err "Expected expression." pos5))
    | .declaration pos =>
      -- Parser::declaration
      let m := matchTTs toks pos [.VAR]
      if m.1 then parseRunF f toks (.varDeclaration m.2)
      else parseRunF f toks (.statement pos)
    | .varDeclaration pos =>
      -- Parser::var_declaration
      match consumeT toks pos .IDENTIFIER "Expect variable name." with
      | .err msg p => some (.stmt (.err msg p))
      | .ok name p =>
        let m := matchTTs toks p [.EQUAL]
        if m.1 then
          match asExpr (parseRunF f toks (.expression m.2)) with
          | none => none
          | some (.err msg p2) => some (.stmt (.err msg p2))
          | some (.ok e p2) =>
            match consumeT toks p2 .SEMICOLON "Expect ; after value." with
            | .ok _ p3 => some (.stmt (.ok (.Var name (some e)) p3))
            | .err msg p3 => some (.stmt (.err msg p3))
        else
          match consumeT toks p .SEMICOLON "Expect ; after value." with
          | .ok _ p3 => some (.stmt (.ok (.Var name none) p3))
          | .err msg p3 => some (.stmt (.err msg p3))
    | .statement pos =>
      -- Parser::statement
      let m1 := matchTTs toks pos [.IF]
      if m1.1 then parseRunF f toks (.ifStatement m1.2)
      else
      let m2 := matchTTs toks pos [.PRINT]
      if m2.1 then parseRunF f toks (.printStatement m2.2)
      else
      let m3 := matchTTs toks pos [.LEFT_BRACE]
      if m3.1 then
        match asStmts (parseRunF f toks (.blockLoop m3.2 [])) with
        | none => none
        | some (.err msg p) => some (.stmt (.err msg p))
        | some (.ok stmts p) => some (.stmt (.ok (.Block stmts) p))
      else
      let m4 := matchTTs toks pos [.WHILE]
      if m4.1 then parseRunF f toks (.whileStatement m4.2)
      else
      let m5 := matchTTs toks pos [.FOR]
      if m5.1 then parseRunF f toks (.forStatement m5.2)
      else parseRunF f toks (.exprStatement pos)
    | .ifStatement pos =>
      -- Parser::if_statement
      match consumeT toks pos .LEFT_PAREN "Expected ( after if" with
      | .err msg p => some (.stmt (.err msg p))
      | .ok _ p =>
        match asExpr (parseRunF f toks (.expression p)) with
        | none => none
        | some (.err msg p1) => some (.stmt (.err msg p1))
        | some (.ok cond p1) =>
          match consumeT toks p1 .RIGHT_PAREN "Expected ) after if condition" with
          | .err msg p2 => some (.stmt (.err msg p2))
          | .ok _ p2 =>
            match asStmt (parseRunF f toks (.statement p2)) with
            | none => none
            | some (.err msg p3) => some (.stmt (.err msg p3))
            | some (.ok thenB p3) =>
              let m := matchTTs toks p3 [.ELSE]
              if m.1 then
                match asStmt (parseRunF f toks (.statement m.2)) with
                | none => none
                | some (.err msg p4) => some (.stmt (.err msg p4))
                | some (.ok elseB p4) => some (.stmt (.ok (.If cond thenB (some elseB)) p4))
              else some (.stmt (.ok (.If cond thenB none) p3))
    | .printStatement pos =>
      -- Parser::print_statement
      match asExpr (parseRunF f toks (.expression pos)) with
      | none => none
      | some (.err msg p) => some (.stmt (.err msg p))
      | some (.ok e p) =>
        match consumeT toks p .SEMICOLON "Expect ; after value." with
        | .ok _ p2 => some (.stmt (.ok (.Print e) p2))
        | .err msg p2 => some (.stmt (.err msg p2))
    | .forStatement pos =>
      -- Parser::for_statement.  The initializer is always parsed
      -- (Some(var_declaration) or Some(expression_statement)); the None
      -- case of the final `if let` is dead code, embedded all the same.
      match consumeT toks pos .LEFT_PAREN "Expected ( after for" with
      | .err msg p => some (.stmt (.err msg p))
      | .ok _ p =>
        let m := matchTTs toks p [.VAR]
        match (if m.1 then asStmt (parseRunF f toks (.varDeclaration m.2))
               else asStmt (parseRunF f toks (.exprStatement p))) with
        | none => none
        | some (.err msg p1) => some (.stmt (.err msg p1))
        | some (.ok init p1) =>
          let initializer : Option Stmt := some init
          match ((if !(checkT toks p1 .SEMICOLON) then asExpr (parseRunF f toks (.expression p1))
                  else some (.ok (.Literal (.VBool true)) p1)) : Option (PRes Expr)) with
          | none => none
          | some (.err msg p2) => some (.stmt (.err msg p2))
          | some (.ok cond p2) =>
            match consumeT toks p2 .SEMICOLON "Expect ; after condition of for loop." with
            | .err msg p3 => some (.stmt (.err msg p3))
            | .ok _ p3 =>
              match ((if !(checkT toks p3 .RIGHT_PAREN) then
                       match asExpr (parseRunF f toks (.expression p3)) with
                       | none => none
                       | some (.err msg p4) => some (.err msg p4)
                       | some (.ok inc p4) => some (.ok (some inc) p4)
                     else some (.ok none p3)) : Option (PRes (Option Expr))) with
              | none => none
              | some (.err msg p4) => some (.stmt (.err msg p4))
              | some (.ok increment p4) =>
                match consumeT toks p4 .RIGHT_PAREN "Expect ) after for loop." with
                | .err msg p5 => some (.stmt (.err msg p5))
                | .ok _ p5 =>
                  match asStmt (parseRunF f toks (.statement p5)) with
                  | none => none
                  | some (.err msg p6) => some (.stmt (.err msg p6))
                  | some (.ok body p6) =>
                    let body := match increment with
                      | some inc => Stmt.Block [body, .ExprStmt inc]
                      | none => body
                    let whileLoop := Stmt.While cond body
                    match initializer with
                    | some init => some (.stmt (.ok (.Block [init, whileLoop]) p6))
                    | none => some (.stmt (.ok whileLoop p6))
    | .whileStatement pos =>
      -- Parser::while_statement
      match consumeT toks pos .LEFT_PAREN "Expected ( after while" with
      | .err msg p => some (.stmt (.err msg p))
      | .ok _ p =>
        match asExpr (parseRunF f toks (.expression p)) with
        | none => none
        | some (.err msg p1) => some (.stmt (.err msg p1))
        | some (.ok cond p1) =>
          match consumeT toks p1 .RIGHT_PAREN "Expected ) after while condition" with
          | .err msg p2 => some (.stmt (.err msg p2))
          | .ok _ p2 =>
            match asStmt (parseRunF f toks (.statement p2)) with
            | none => none
            | some (.err msg p3) => some (.stmt (.err msg p3))
            | some (.ok body p3) => some (.stmt (.ok (.While cond body) p3))
    | .exprStatement pos =>
      -- Parser::expression_statement
      match asExpr (parseRunF f toks (.expression pos)) with
      | none => none
      | some (.err msg p) => some (.stmt (.err msg p))
      | some (.ok e p) =>
        match consumeT toks p .SEMICOLON "Expect ; after expression." with
        | .ok _ p2 => some (.stmt (.ok (.ExprStmt e) p2))
        | .err msg p2 => some (.stmt (.err msg p2))
    | .blockLoop pos acc =>
      -- the loop of Parser::block: declarations are accumulated, and a
      -- failed declaration is silently dropped (if let Ok(..)), the cursor
      -- staying wherever the failure left it
      if !(checkT toks pos .RIGHT_BRACE) && !(isAtEndP toks pos) then
        match asStmt (parseRunF f toks (.declaration pos)) with
        | none => none
        | some (.ok st p) => parseRunF f toks (.blockLoop p (acc ++ [st]))
        | some (.err _ p) => parseRunF f toks (.blockLoop p acc)
      else
        match consumeT toks pos .RIGHT_BRACE "Expected closing brace after block." with
        | .ok _ p2 => some (.stmts (.ok acc p2))
        | .err msg p2 => some (.stmts (.err msg p2))

/-- Mirrors `Parser::expression`. -/
def expressionF (fuel : Nat) (toks : List Token) (pos : Nat) : Option (PRes Expr) :=
  asExpr (parseRunF fuel toks (.expression pos))

/-- Mirrors `Parser::declaration`. -/
def declarationF (fuel : Nat) (toks : List Token) (pos : Nat) : Option (PRes Stmt) :=
  asStmt (parseRunF fuel toks (.declaration pos))

/-- Mirrors `Parser::statement`. -/
def statementF (fuel : Nat) (toks : List Token) (pos : Nat) : Option (PRes Stmt) :=
  asStmt (parseRunF fuel toks (.statement pos))

/-- Mirrors `Parser::for_statement` (entered after the FOR token). -/
def forStatementF (fuel : Nat) (toks : List Token) (pos : Nat) : Option (PRes Stmt) :=
  asStmt (parseRunF fuel toks (.forStatement pos))

/-- Result of `Parser::parse`: the statement list and the reported parse
errors, or the panic raised through `synchronize`/`previous`. -/
inductive ParseOut where
  | panicked : ParseOut
  | stmts : List Stmt → List String → ParseOut
deriving Repr

/-- The loop of `Parser::parse`: on a failed declaration the error is
reported and `synchronize` runs; after either outcome the loop stops once
`check(EOF)` holds. -/
def parseLoopF : Nat → List Token → Nat → List Stmt → List String → Option ParseOut
  | 0, _, _, _, _ => none
  | f + 1, toks, pos, acc, errs =>
    if isAtEndP toks pos then some (.stmts acc errs)
    else
      match declarationF f toks pos with
      | none => none
      | some (.ok st p) =>
        if checkT toks p .EOF then some (.stmts (acc ++ [st]) errs)
        else parseLoopF f toks p (acc ++ [st]) errs
      | some (.err msg p) =>
        let errs := errs ++ ["Parsing error: " ++ msg]
        match syncF f toks p with
        | none => none
        | some .panicked => some .panicked
        | some (.done p2) =>
          if checkT toks p2 .EOF then some (.stmts acc errs)
          else parseLoopF f toks p2 acc errs

/-- Mirrors `Parser::parse`, starting from position 0. -/
def parseF (fuel : Nat) (toks : List Token) : Option ParseOut :=
  parseLoopF fuel toks 0 [] []

/-! ## Environment (src/ruistic/src/environment.rs)

`Environment { values: HashMap<String, Value>, parent: Option<Rc<RefCell<Environment>>> }`
is modelled as an inductive chain: `root vals` is an environment with
`parent: None`, `child vals p` one with `parent: Some(p)`.  The `HashMap`
is an association list whose `insert` replaces an existing key. -/

/-- Environment chain: `root` has no parent, `child` has one. -/
inductive Env where
  | root : List (String × Value) → Env
  | child : List (String × Value) → Env → Env
deriving Repr

/-- `HashMap::get` on the association-list model. -/
def lookupV : List (String × Value) → String → Option Value
  | [], _ => none
  | (k, w) :: t, n => if k = n then some w else lookupV t n

/-- `HashMap::insert`: replaces the binding if the key is present. -/
def insertV : List (String × Value) → String → Value → List (String × Value)
  | [], n, v => [(n, v)]
  | (k, w) :: t, n, v => if k = n then (k, v) :: t else (k, w) :: insertV t n v

/-- `HashMap::contains_key`. -/
def containsV (l : List (String × Value)) (n : String) : Bool :=
  (lookupV l n).isSome

/-- The local frame of an environment. -/
def Env.vals : Env → List (String × Value)
  | .root vals => vals
  | .child vals _ => vals

/-- Mirrors `Environment::define`: inserts into the current frame. -/
def envDefine : Env → String → Value → Env
  | .root vals, n, v => .root (insertV vals n v)
  | .child vals p, n, v => .child (insertV vals n v) p

/-- Mirrors `Environment::assign`: updates the nearest frame in the chain
that contains the key, or fails without modifying anything. -/
def envAssign : Env → String → Value → Except String Env
  | .root vals, n, v =>
    if containsV vals n then .ok (.root (insertV vals n v))
    else .error ("Runtime error: Variable " ++ n ++ " not defined")
  | .child vals p, n, v =>
    if containsV vals n then .ok (.child (insertV vals n v) p)
    else
      match envAssign p n v with
      | .ok p' => .ok (.child vals p')
      | .error e => .error e

/-- Mirrors `Environment::get`: looks up the nearest frame that binds the
name, walking outward. -/
def envGet : Env → String → Except String Value
  | .root vals, n =>
    match lookupV vals n with
    | some v => .ok v
    | none => .error ("Runtime error: Variable " ++ n ++ " not defined")
  | .child vals p, n =>
    match lookupV vals n with
    | some v => .ok v
    | none => envGet p n

/-- Whether some frame of the chain binds the name (specification-side
predicate used to state theorems about `envAssign`/`envGet`). -/
def definedInChain : Env → String → Bool
  | .root vals, n => containsV vals n
  | .child vals p, n => containsV vals n || definedInChain p n

/-- Modelled from the spec: "assigns into the nearest enclosing environment
(walking outward) that already defines the name".  Total function; it is
compared with `envAssign` only under the hypothesis that the name is
defined somewhere in the chain. -/
def assignNearest : Env → String → Value → Env
  | .root vals, n, v =>
    if containsV vals n then .root (insertV vals n v) else .root vals
  | .child vals p, n, v =>
    if containsV vals n then .child (insertV vals n v) p
    else .child vals (assignNearest p n v)

/-! ## Interpreter (src/ruistic/src/interpreter.rs)

`Interpreter` holds `environment: Rc<RefCell<Environment>>`.  Nothing in the
program ever assigns a different `Rc` to `self.environment` (in particular
`execute_block` receives `new_env` but never installs it), so the single
environment pointed to is threaded through evaluation as a value.
Evaluation returns the `Result` *and* the environment as mutated so far,
because `evaluate` can mutate the environment (through `Expr::Assign`)
before a later subexpression fails. -/

/-- Abbreviates the text the `{:?}` debug formatter would produce for a
token inside interpreter error messages; no claim depends on this text. -/
def tokenDebug (tok : Token) : String :=
  tok.lexeme

/-- Mirrors `Interpreter::is_truthy`. -/
def isTruthy : Value → Bool
  | .VBool b => b
  | .Nil => false
  | _ => true

/-- Mirrors the derived `PartialEq` of `Value`: structural equality on tag
and payload. -/
def valueEq (a b : Value) : Bool :=
  decide (a = b)

/-- Mirrors `Interpreter::stringify`.  `Number(n)` uses the `f64` `Display`,
which prints integral doubles without a fractional part; the integral case
is the only one the verified programs reach. -/
def stringifyV : Value → String
  | .Number n => if n.den = 1 then toString n.num else toString n.num ++ "/" ++ toString n.den
  | .VBool b => if b then "true" else "false"
  | .Str s => s
  | .Nil => "nil"

/-- Mirrors `Interpreter::evaluate`.  Returns the `Result<Value, String>`
paired with the environment as left by the interpreter's side effects. -/
def evalExpr : Env → Expr → Except String Value × Env
  | env, .Literal v => (.ok v, env)
  | env, .Unary op right =>
    match evalExpr env right with
    | (.error e, env1) => (.error e, env1)
    | (.ok rv, env1) =>
      match op.t with
      | .MINUS =>
        match rv with
        | .Number n => (.ok (.Number (-n)), env1)
        | _ => (.error ("Not a number: " ++ tokenDebug op), env1)
      | .BANG => (.ok (.VBool (!(isTruthy rv))), env1)
      | _ => (.error ("Unknown unary operator: " ++ tokenDebug op), env1)
  | env, .Binary l op r =>
    match evalExpr env l with
    | (.error e, env1) => (.error e, env1)
    | (.ok lv, env1) =>
      match evalExpr env1 r with
      | (.error e, env2) => (.error e, env2)
      | (.ok rv, env2) =>
        match op.t with
        | .PLUS =>
          match lv, rv with
          | .Number a, .Number b => (.ok (.Number (a + b)), env2)
          | .Str a, .Str b => (.ok (.Str (a ++ b)), env2)
          | _, _ => (.error ("Error " ++ tokenDebug op ++ " not supported or mismatching types."), env2)
        | .MINUS =>
          match lv, rv with
          | .Number a, .Number b => (.ok (.Number (a - b)), env2)
          | _, _ => (.error ("Not a number or non-numeric values for operator: " ++ tokenDebug op), env2)
        | .STAR =>
          match lv, rv with
          | .Number a, .Number b => (.ok (.Number (a * b)), env2)
          | _, _ => (.error ("Error " ++ tokenDebug op ++ " not supported or mismatching types."), env2)
        | .SLASH =>
          match lv, rv with
          | .Number a, .Number b =>
            if b = 0 then (.error "Division by zero not allowed.", env2)
            else (.ok (.Number (a / b)), env2)
          | _, _ => (.error ("Error " ++ tokenDebug op ++ " not supported or types not numeric."), env2)
        | .EQUAL_EQUAL => (.ok (.VBool (valueEq lv rv)), env2)
        | .BANG_EQUAL => (.ok (.VBool (!(valueEq lv rv))), env2)
        | .GREATER =>
          match lv, rv with
          | .Number a, .Number b => (.ok (.VBool (decide (a > b))), env2)
          | _, _ => (.error ("Error " ++ tokenDebug op ++ " not supported or mismatching types."), env2)
        | .GREATER_EQUAL =>
          match lv, rv with
          | .Number a, .Number b => (.ok (.VBool (decide (a ≥ b))), env2)
          | _, _ => (.error ("Error " ++ tokenDebug op ++ " not supported or mismatching types."), env2)
        | .LESS =>
          match lv, rv with
          | .Number a, .Number b => (.ok (.VBool (decide (a < b))), env2)
          | _, _ => (.error ("Error " ++ tokenDebug op ++ " not supported or mismatching types."), env2)
        | .LESS_EQUAL =>
          match lv, rv with
          | .Number a, .Number b => (.ok (.VBool (decide (a ≤ b))), env2)
          | _, _ => (.error ("Error " ++ tokenDebug op ++ " not supported or mismatching types."), env2)
        | _ => (.error ("Error " ++ tokenDebug op ++ " unknown binary operator."), env2)
  | env, .Grouping e => evalExpr env e
  | env, .Variable name => (envGet env name.lexeme, env)
  | env, .Assign name value =>
    match evalExpr env value with
    | (.error e, env1) => (.error e, env1)
    | (.ok v, env1) =>
      match envAssign env1 name.lexeme v with
      | .error e => (.error e, env1)
      | .ok env2 => (.ok v, env2)

/-- Interpreter state: the environment plus the stdout (`println!`) and
stderr (`eprintln!`) lines produced so far. -/
structure EState where
  env : Env
  out : List String
  errs : List String
deriving Repr

/-- The interpreter's statement execution, embedded as a worklist machine
so that the recursion is structural in the fuel (kernel-computable): the
list argument holds the statements still to execute, and each Rust call of
`Interpreter::execute` corresponds to the head statement being processed
(a `Block` pushes its statements, `If` its chosen branch, a truthy `While`
its body followed by the `While` itself).  Runtime errors are printed,
never propagated; only fuel exhaustion (modelling a diverging `while`)
yields `none`. -/
def execW : Nat → EState → List Stmt → Option EState
  | _, st, [] => some st
  | 0, _, _ :: _ => none
  | f + 1, st, s :: rest =>
    match s with
    | .ExprStmt e =>
      -- Stmt::Expr: `let _ = self.evaluate(expr)`, keeping side effects
      let r := evalExpr st.env e
      execW f { st with env := r.2 } rest
    | .Print e =>
      match evalExpr st.env e with
      | (.ok v, env1) => execW f { st with env := env1, out := st.out ++ [stringifyV v] } rest
      | (.error e, env1) => execW f { st with env := env1, errs := st.errs ++ ["Runtime error: " ++ e] } rest
    | .Var name init =>
      -- Stmt::Var: `evaluate(expr).unwrap_or(Value::Nil)` then `define`
      match init with
      | some e =>
        match evalExpr st.env e with
        | (.ok v, env1) => execW f { st with env := envDefine env1 name.lexeme v } rest
        | (.error _, env1) => execW f { st with env := envDefine env1 name.lexeme .Nil } rest
      | none => execW f { st with env := envDefine st.env name.lexeme .Nil } rest
    | .Block stmts =>
      -- Stmt::Block builds `new_env = enclose(current)` and calls
      -- `execute_block(stmts, new_env)`, but `execute_block` never assigns
      -- `self.environment = new_env` (the parameter is unused) and its
      -- final `self.environment = previous` restores the pointer it
      -- started with, so the block's statements simply run in order
      -- against the unchanged current environment and their mutations
      -- persist.
      execW f st (stmts ++ rest)
    | .If cond thenB elseB =>
      match evalExpr st.env cond with
      | (.ok v, env1) =>
        if isTruthy v then execW f { st with env := env1 } (thenB :: rest)
        else
          match elseB with
          | some e => execW f { st with env := env1 } (e :: rest)
          | none => execW f { st with env := env1 } rest
      | (.error e, env1) =>
        execW f { st with env := env1, errs := st.errs ++ ["Runtime error in if statement: " ++ e] } rest
    | .While cond body =>
      -- `while let Ok(value) = evaluate(condition)`: a condition error
      -- exits the loop silently
      match evalExpr st.env cond with
      | (.error _, env1) => execW f { st with env := env1 } rest
      | (.ok v, env1) =>
        if !(isTruthy v) then execW f { st with env := env1 } rest
        else execW f { st with env := env1 } (body :: .While cond body :: rest)

/-- Mirrors one call of `Interpreter::execute`. -/
def execF (fuel : Nat) (st : EState) (stmt : Stmt) : Option EState :=
  execW fuel st [stmt]

/-- Mirrors `Interpreter::interpret` from a fresh interpreter
(`Environment::new()`: empty root frame). -/
def interpretF (fuel : Nat) (stmts : List Stmt) : Option EState :=
  execW fuel { env := .root [], out := [], errs := [] } stmts

/-- Outcome of `run` in main.rs: scan, parse, interpret.  `panicked` is the
parser panic; `output` carries the stdout lines and the stderr lines
(parse diagnostics followed by runtime diagnostics). -/
inductive RunOut where
  | panicked : RunOut
  | output : List String → List String → RunOut
deriving Repr

/-- Mirrors `run` from main.rs, with one fuel bound for all phases. -/
def runF (fuel : Nat) (src : List Char) : Option RunOut :=
  match scanTokensF fuel src with
  | none => none
  | some toks =>
    match parseF fuel toks with
    | none => none
    | some .panicked => some .panicked
    | some (.stmts stmts perrs) =>
      match interpretF fuel stmts with
      | none => none
      | some st => some (.output st.out (perrs ++ st.errs))

/-! ## Helper lemmas about the environment -/

/-- When the name is bound somewhere in the chain, `Environment::assign`
succeeds and performs exactly the nearest-enclosing update. -/
theorem envAssign_eq_nearest (n : String) (v : Value) :
    ∀ env : Env, definedInChain env n = true →
      envAssign env n v = .ok (assignNearest env n v) := by
  intro env
  induction env with
  | root vals =>
    intro h
    simp [definedInChain] at h
    simp [envAssign, assignNearest, h]
  | child vals p ih =>
    intro h
    by_cases hc : containsV vals n
    · simp [envAssign, assignNearest, hc]
    · simp [definedInChain, hc] at h
      simp [envAssign, assignNearest, hc, ih h]

/-- When no frame in the chain binds the name, `Environment::assign` fails
with the undefined-variable error (and, being functional, changes nothing). -/
theorem envAssign_undef (n : String) (v : Value) :
    ∀ env : Env, definedInChain env n = false →
      envAssign env n v = .error ("Runtime error: Variable " ++ n ++ " not defined") := by
  intro env
  induction env with
  | root vals =>
    intro h
    simp [definedInChain] at h
    simp [envAssign, h]
  | child vals p ih =>
    intro h
    simp [definedInChain] at h
    simp [envAssign, h.1, ih h.2]

/-! ## Claims -/

/-- C1: the spec claims `Block` creates a new enclosing environment so that
an inner `var x` shadows the outer one and
`var x = 1; { var x = 2; print x; } print x;` prints `2` then `1`.  In the
code, `execute_block` never installs the `new_env` it receives (the
parameter is unused), so the inner `var x = 2` overwrites the outer binding
and the program prints `2` then `2`. -/
theorem c1_block_scope_bug :
    runF 300 "var x = 1; \x7b var x = 2; print x; \x7d print x;".toList
      = some (.output ["2", "2"] []) := by
  rfl

/-- C6: evaluating an assignment first evaluates the right-hand side (an
RHS error propagates unchanged); on success it assigns into the nearest
enclosing environment already defining the name, the expression yielding
the assigned value; if no frame in the chain defines the name it fails
with the undefined-variable error and the environment is left exactly as
the right-hand side left it (no binding is created). -/
theorem c6_assign_semantics :
    (∀ (env : Env) (name : Token) (rhs : Expr) (v : Value) (env1 : Env),
       evalExpr env rhs = (.ok v, env1) →
       (definedInChain env1 name.lexeme = true →
          evalExpr env (.Assign name rhs) = (.ok v, assignNearest env1 name.lexeme v))
       ∧ (definedInChain env1 name.lexeme = false →
          evalExpr env (.Assign name rhs)
            = (.error ("Runtime error: Variable " ++ name.lexeme ++ " not defined"), env1)))
    ∧ (∀ (env : Env) (name : Token) (rhs : Expr) (e : String) (env1 : Env),
       evalExpr env rhs = (.error e, env1) →
       evalExpr env (.Assign name rhs) = (.error e, env1))
    ∧ (∀ (env : Env) (n : String) (v : Value),
       definedInChain env n = false →
       envAssign env n v = .error ("Runtime error: Variable " ++ n ++ " not defined")) := by
  refine ⟨?_, ?_, ?_⟩
  · intro env name rhs v env1 hrhs
    constructor
    · intro hd
      simp [evalExpr, hrhs, envAssign_eq_nearest _ _ _ hd]
    · intro hu
      simp [evalExpr, hrhs, envAssign_undef _ _ _ hu]
  · intro env name rhs e env1 hrhs
    simp [evalExpr, hrhs]
  · intro env n v h
    exact envAssign_undef n v env h

/-- Witness for C6 at a concrete input: assigning `x = 5` in an environment
whose single frame binds `x` succeeds with value 5 and updates the frame. -/
theorem c6_assign_witness :
    evalExpr (.root [("x", .Number 1)])
        (.Assign ⟨.IDENTIFIER, "x", none, 1⟩ (.Literal (.Number 5)))
      = (.ok (.Number 5), assignNearest (.root [("x", .Number 1)]) "x" (.Number 5)) :=
  (c6_assign_semantics.1 (.root [("x", .Number 1)]) ⟨.IDENTIFIER, "x", none, 1⟩
      (.Literal (.Number 5)) (.Number 5) (.root [("x", .Number 1)]) rfl).1 (by decide)

/-- C7: binary `/` succeeds with the quotient exactly when both operands are
numbers and the divisor is nonzero; a zero divisor yields the dedicated
division-by-zero error, and a non-number operand the type error. -/
theorem c7_slash_semantics :
    (∀ (env : Env) (op : Token) (a b : Rat), op.t = .SLASH → b ≠ 0 →
       evalExpr env (.Binary (.Literal (.Number a)) op (.Literal (.Number b)))
         = (.ok (.Number (a / b)), env))
    ∧ (∀ (env : Env) (op : Token) (a : Rat), op.t = .SLASH →
       evalExpr env (.Binary (.Literal (.Number a)) op (.Literal (.Number 0)))
         = (.error "Division by zero not allowed.", env))
    ∧ (∀ (env : Env) (op : Token) (l r : Value), op.t = .SLASH →
       ((∀ a, l ≠ .Number a) ∨ (∀ b, r ≠ .Number b)) →
       evalExpr env (.Binary (.Literal l) op (.Literal r))
         = (.error ("Error " ++ tokenDebug op ++ " not supported or types not numeric."), env))
    ∧ (∀ (env : Env) (op : Token) (l r : Value) (v : Value) (env2 : Env), op.t = .SLASH →
       evalExpr env (.Binary (.Literal l) op (.Literal r)) = (.ok v, env2) →
       ∃ a b, l = .Number a ∧ r = .Number b ∧ b ≠ 0 ∧ v = .Number (a / b) ∧ env2 = env) := by
  refine ⟨?_, ?_, ?_, ?_⟩
  · intro env op a b h hb
    simp [evalExpr, h, hb]
  · intro env op a h
    simp [evalExpr, h]
  · intro env op l r h hlr
    cases l <;> cases r <;> simp_all [evalExpr, h]
  · intro env op l r v env2 h heval
    cases l <;> cases r <;> simp [evalExpr, h] at heval
    case Number.Number a b =>
      by_cases hb : b = 0
      · simp [hb] at heval
      · simp [hb] at heval
        exact ⟨a, b, rfl, rfl, hb, heval.1.symm, heval.2.symm⟩

/-- Witness for C7 at a concrete input: `6 / 3` evaluates to the quotient. -/
theorem c7_slash_witness :
    evalExpr (.root []) (.Binary (.Literal (.Number 6)) ⟨.SLASH, "/", none, 1⟩ (.Literal (.Number 3)))
      = (.ok (.Number (6 / 3)), .root []) :=
  c7_slash_semantics.1 (.root []) ⟨.SLASH, "/", none, 1⟩ 6 3 rfl (by norm_num)

/-- C8: `==` and `!=` always succeed on any pair of values, returning the
structural equality Boolean; mismatched types compare unequal, so
`1 == "1"` is `false`. -/
theorem c8_equality_semantics :
    (∀ (env : Env) (op : Token) (v1 v2 : Value), op.t = .EQUAL_EQUAL →
       evalExpr env (.Binary (.Literal v1) op (.Literal v2))
         = (.ok (.VBool (valueEq v1 v2)), env))
    ∧ (∀ (env : Env) (op : Token) (v1 v2 : Value), op.t = .BANG_EQUAL →
       evalExpr env (.Binary (.Literal v1) op (.Literal v2))
         = (.ok (.VBool (!(valueEq v1 v2))), env))
    ∧ (∀ v1 v2 : Value, valueEq v1 v2 = true ↔ v1 = v2)
    ∧ (∀ (env : Env) (op : Token), op.t = .EQUAL_EQUAL →
       evalExpr env (.Binary (.Literal (.Number 1)) op (.Literal (.Str "1")))
         = (.ok (.VBool false), env)) := by
  refine ⟨?_, ?_, ?_, ?_⟩
  · intro env op v1 v2 h
    simp [evalExpr, h]
  · intro env op v1 v2 h
    simp [evalExpr, h]
  · intro v1 v2
    simp [valueEq]
  · intro env op h
    simp [evalExpr, h, valueEq]

/-- Witness for C8 at a concrete input: `1 == "1"` evaluates to `false`. -/
theorem c8_equality_witness :
    evalExpr (.root []) (.Binary (.Literal (.Number 1)) ⟨.EQUAL_EQUAL, "==", none, 1⟩ (.Literal (.Str "1")))
      = (.ok (.VBool false), .root []) :=
  c8_equality_semantics.2.2.2 (.root []) ⟨.EQUAL_EQUAL, "==", none, 1⟩ rfl

/-- C9: executing a variable declaration always succeeds (returns normally,
printing nothing): without an initializer the name is bound to `Nil`; with
an initializer that evaluates to `v` it is bound to `v`; and when the
initializer fails the error is swallowed (`unwrap_or(Nil)`) and the name is
bound to `Nil`, execution continuing with no diagnostic. -/
theorem c9_var_decl_semantics :
    (∀ (f : Nat) (st : EState) (name : Token),
       execF (f + 1) st (.Var name none)
         = some { st with env := envDefine st.env name.lexeme .Nil })
    ∧ (∀ (f : Nat) (st : EState) (name : Token) (e : Expr) (v : Value) (env1 : Env),
       evalExpr st.env e = (.ok v, env1) →
       execF (f + 1) st (.Var name (some e))
         = some { st with env := envDefine env1 name.lexeme v })
    ∧ (∀ (f : Nat) (st : EState) (name : Token) (e : Expr) (msg : String) (env1 : Env),
       evalExpr st.env e = (.error msg, env1) →
       execF (f + 1) st (.Var name (some e))
         = some { st with env := envDefine env1 name.lexeme .Nil }) := by
  refine ⟨?_, ?_, ?_⟩
  · intro f st name
    simp [execF, execW]
  · intro f st name e v env1 h
    simp [execF, execW, h]
  · intro f st name e msg env1 h
    simp [execF, execW, h]

/-- Witness for C9 at a concrete input: `var x = y;` with `y` undefined
swallows the error and binds `x` to `Nil`. -/
theorem c9_var_decl_witness :
    execF 1 ⟨.root [], [], []⟩
        (.Var ⟨.IDENTIFIER, "x", none, 1⟩ (some (.Variable ⟨.IDENTIFIER, "y", none, 1⟩)))
      = some ⟨envDefine (.root []) "x" .Nil, [], []⟩ :=
  c9_var_decl_semantics.2.2 0 ⟨.root [], [], []⟩ ⟨.IDENTIFIER, "x", none, 1⟩
    (.Variable ⟨.IDENTIFIER, "y", none, 1⟩) "Runtime error: Variable y not defined" (.root []) rfl
/-! ## Helper lemmas about the scanner loops -/

/-- A failed `match_char` leaves the cursor where it was. -/
theorem matchCharB_false (src : List Char) (cur : Nat) (c : Char)
    (h : (matchCharB src cur c).1 = false) :
    matchCharB src cur c = (false, cur) := by
  revert h
  unfold matchCharB
  split
  · intro _; rfl
  · split
    · intro _; rfl
    · intro h; simp at h

/-- When the character under the cursor is not a newline (in particular at
end of input), `match_char` does not advance, so the scanner's line-comment
loop never changes state and exhausts any fuel. -/
theorem lineCommentLoop_stuck (src : List Char) (cur line : Nat)
    (h : (matchCharB src cur '\n').1 = false) :
    ∀ f, lineCommentLoopF f src cur line = none := by
  have hm : matchCharB src cur '\n' = (false, cur) := matchCharB_false src cur '\n' h
  intro f
  induction f with
  | zero => rfl
  | succ f ih =>
    simp only [lineCommentLoopF, hm]
    simpa using ih

/-- Past the end of input `peek` returns `'\0'`, never the closing quote,
so the string loop keeps advancing and exhausts any fuel. -/
theorem stringLoop_pastEnd (src : List Char) :
    ∀ (f cur line : Nat), src.length ≤ cur → stringLoopF f src cur line = none := by
  intro f
  induction f with
  | zero => intro cur line _; rfl
  | succ f ih =>
    intro cur line h
    have hp : peekC src cur = Char.ofNat 0 := by
      unfold peekC
      rw [if_pos (by omega)]
    simp only [stringLoopF, hp]
    rw [if_pos (by decide)]
    exact ih (cur + 1) _ (by omega)

/-- One iteration of the string loop when the closing quote has not been
reached. -/
theorem stringLoop_step (src : List Char) (f cur line : Nat)
    (h : peekC src cur ≠ '\"') :
    stringLoopF (f + 1) src cur line
      = stringLoopF f src (cur + 1) (if peekC src cur = '\n' then line + 1 else line) := by
  simp only [stringLoopF]
  rw [if_pos h]

/-- On the unterminated string `"ab` the string loop diverges: it walks off
the end of the input and never exits. -/
theorem stringLoop_unterminated (line : Nat) (f : Nat) :
    stringLoopF f ['\"', 'a', 'b'] 1 line = none := by
  match f with
  | 0 => rfl
  | 1 => rfl
  | f + 2 =>
    rw [stringLoop_step _ _ _ _ (by decide), stringLoop_step _ _ _ _ (by decide)]
    exact stringLoop_pastEnd _ f 3 _ (by decide)

/-- C2: the spec claims scanning always terminates with an EOF-terminated
token list, an unterminated string yielding a recoverable error and a
trailing `//` comment being consumed.  In the code both loops diverge:
the line-comment loop calls `match_char('\n')`, which does not advance on
a mismatch, so `// a` loops forever on the space after `//`; and the
string loop never tests for end of input, so `"ab` walks off the end
forever (the `Err("Unterminated string.")` after it is unreachable).
`none` for every fuel is the embedding's rendering of divergence. -/
theorem c2_scan_nontermination :
    (∀ f, scanTokensF f ("// a".toList) = none)
    ∧ (∀ f, scanTokensF f ("\"ab".toList) = none) := by
  constructor
  · intro f
    match f with
    | 0 => rfl
    | f + 1 =>
      show scanTokensF (f + 1) ['/', '/', ' ', 'a'] = none
      have htok : scanTokenF f ⟨['/', '/', ' ', 'a'], [], 0, 0, 1, []⟩ = none := by
        simp only [scanTokenF, advanceC]
        simp [matchCharB]
        rw [lineCommentLoop_stuck _ 2 1 (by decide) f]
      have hloop : scanLoopF (f + 1) ⟨['/', '/', ' ', 'a'], [], 0, 0, 1, []⟩ = none := by
        simp [scanLoopF, htok]
      unfold scanTokensF
      rw [hloop]
  · intro f
    match f with
    | 0 => rfl
    | f + 1 =>
      show scanTokensF (f + 1) ['\"', 'a', 'b'] = none
      have htok : scanTokenF f ⟨['\"', 'a', 'b'], [], 0, 0, 1, []⟩ = none := by
        simp only [scanTokenF, stringF, advanceC]
        simp [matchCharB]
        rw [stringLoop_unterminated 1 f]
      have hloop : scanLoopF (f + 1) ⟨['\"', 'a', 'b'], [], 0, 0, 1, []⟩ = none := by
        simp [scanLoopF, htok]
      unfold scanTokensF
      rw [hloop]

/-- C5 counterexample: scanning `/*x*/+1;` loses the `+`.  The claim says
ordinary scanning resumes at the character immediately following the
closing `*/`, which would yield a PLUS token before the NUMBER; the loop's
trailing `advance()` consumes the `+`, so the scan yields only NUMBER,
SEMICOLON, EOF. -/
theorem c5_block_comment_counterexample :
    (scanTokensF 100 ("/*x*/+1;".toList)).map (List.map Token.t)
      = some [.NUMBER, .SEMICOLON, .EOF] := by
  rfl

/-- C5 (amended): each iteration of the block-comment loop ends with an
unconditional `advance()`, so the `*/` that returns the depth to zero
consumes *three* characters — `*`, `/`, and the character after them — and
ordinary scanning resumes at the second character past the closing `*/`;
a nested `/*` or an inner `*/` likewise consumes three characters while
moving the depth; and if input ends while the depth is positive the loop
stops there with the "Unterminated block comment" diagnostic. -/
theorem c5_block_comment_amended :
    (∀ (f : Nat) (src : List Char) (cur line : Nat),
       cur < src.length → peekC src cur = '*' → peekNextC src cur = '/' →
       blockCommentLoopF (f + 2) src cur line 1 = some (cur + 3, line, false))
    ∧ (∀ (f : Nat) (src : List Char) (cur line d : Nat),
       cur < src.length → peekC src cur = '*' → peekNextC src cur = '/' →
       blockCommentLoopF (f + 1) src cur line (d + 2)
         = blockCommentLoopF f src (cur + 3) line (d + 1))
    ∧ (∀ (f : Nat) (src : List Char) (cur line d : Nat),
       cur < src.length → peekC src cur = '/' → peekNextC src cur = '*' →
       blockCommentLoopF (f + 1) src cur line (d + 1)
         = blockCommentLoopF f src (cur + 3) line (d + 2))
    ∧ (∀ (f : Nat) (src : List Char) (cur line d : Nat),
       src.length ≤ cur →
       blockCommentLoopF (f + 1) src cur line (d + 1) = some (cur, line, true)) := by
  refine ⟨?_, ?_, ?_, ?_⟩
  · intro f src cur line hlt hs hn
    have h1 : blockCommentLoopF (f + 2) src cur line 1
        = blockCommentLoopF (f + 1) src (cur + 3) line 0 := by
      simp [blockCommentLoopF, hs, hn, Nat.not_le.mpr hlt]
    rw [h1]
    simp [blockCommentLoopF]
  · intro f src cur line d hlt hs hn
    simp [blockCommentLoopF, hs, hn, Nat.not_le.mpr hlt]
  · intro f src cur line d hlt hs hn
    simp [blockCommentLoopF, hs, hn, Nat.not_le.mpr hlt]
  · intro f src cur line d hge
    simp [blockCommentLoopF, hge]

/-- Witness for C5's amended claim at a concrete input: a closing `*/` at
the start of `*/x` with depth 1 exits the loop at position 3, one past the
`x`. -/
theorem c5_block_comment_witness :
    blockCommentLoopF 2 ['*', '/', 'x'] 0 1 1 = some (3, 1, false) :=
  c5_block_comment_amended.1 0 ['*', '/', 'x'] 0 1 (by decide) (by decide) (by decide)

/-- The scan-then-parse prefix of `run` from main.rs. -/
def pipeParseF (fuel : Nat) (src : List Char) : Option ParseOut :=
  match scanTokensF fuel src with
  | none => none
  | some toks => parseF fuel toks

/-- `Parser::synchronize`, entered with at least one token consumed,
terminates at a statement boundary: either end of input, or just past a
`;`, or at a token that begins a statement. -/
theorem syncF_spec : ∀ (f : Nat) (toks : List Token) (pos : Nat),
    1 ≤ pos → pos ≤ toks.length → toks.length + 1 ≤ f + pos →
    ∃ posN, syncF f toks pos = some (.done posN) ∧ pos ≤ posN ∧
      (toks.length ≤ posN ∨ (prevT toks posN).t = .SEMICOLON
        ∨ isSyncStart (peekT toks posN).t = true) := by
  intro f
  induction f with
  | zero => intro toks pos _ h2 h3; omega
  | succ f ih =>
    intro toks pos h1 h2 h3
    have hnz : ¬(pos = 0) := by omega
    cases hend : isAtEndP toks pos with
    | true =>
      refine ⟨pos, by simp [syncF, hend], le_refl pos, Or.inl ?_⟩
      simpa [isAtEndP] using hend
    | false =>
      have hlt : pos < toks.length := by
        simp [isAtEndP] at hend
        omega
      by_cases hsemi : (prevT toks pos).t = .SEMICOLON
      · exact ⟨pos, by simp [syncF, hend, hnz, hsemi], le_refl pos, Or.inr (Or.inl hsemi)⟩
      · by_cases hstart : isSyncStart (peekT toks pos).t = true
        · exact ⟨pos, by simp [syncF, hend, hnz, hsemi, hstart], le_refl pos,
            Or.inr (Or.inr hstart)⟩
        · obtain ⟨posN, hrun, hle, hbound⟩ := ih toks (pos + 1) (by omega) (by omega) (by omega)
          refine ⟨posN, ?_, by omega, hbound⟩
          simp [syncF, hend, hnz, hsemi, hstart, hrun]

/-- C3 counterexample: the claim says that after a failed statement the
parser resynchronizes and every following well-formed statement is still
parsed; but on `) print 1;` the first statement fails with no token
consumed, `synchronize` calls `previous()` at position 0, and the parser
panics — the well-formed `print 1;` is never parsed or returned. -/
theorem c3_recovery_counterexample :
    pipeParseF 100 (") print 1;".toList) = some .panicked := by
  rfl

/-- C3 (amended): when a top-level statement fails to parse *having
consumed at least one token*, the parser reports the error, abandons the
statement, and resynchronizes by advancing to a statement boundary (just
past a `;`, at a token in the class/fun/var/for/if/while/print/return set,
or end of input), after which parsing continues; in particular `var ;`
followed by `print 1;` still yields the print statement (with the error
reported).  (A statement failing before any token is consumed instead
panics in `previous()`.) -/
theorem c3_recovery_amended :
    (∀ (f : Nat) (toks : List Token) (pos : Nat),
       1 ≤ pos → pos ≤ toks.length → toks.length + 1 ≤ f + pos →
       ∃ posN, syncF f toks pos = some (.done posN) ∧ pos ≤ posN ∧
         (toks.length ≤ posN ∨ (prevT toks posN).t = .SEMICOLON
           ∨ isSyncStart (peekT toks posN).t = true))
    ∧ pipeParseF 100 ("var ; print 1;".toList)
        = some (.stmts [.Print (.Literal (.Number 1))]
            ["Parsing error: Expect variable name. at line 1"]) :=
  ⟨syncF_spec, by rfl⟩

/-- Witness for C3's amended claim at a concrete input: synchronizing from
position 1 of `[;, EOF]` stops at a boundary. -/
theorem c3_recovery_witness :
    ∃ posN, syncF 3 [⟨.SEMICOLON, ";", none, 1⟩, ⟨.EOF, "", none, 1⟩] 1
        = some (.done posN) ∧ 1 ≤ posN ∧
      (([⟨.SEMICOLON, ";", none, 1⟩, ⟨.EOF, "", none, 1⟩] : List Token).length ≤ posN
        ∨ (prevT [⟨.SEMICOLON, ";", none, 1⟩, ⟨.EOF, "", none, 1⟩] posN).t = .SEMICOLON
        ∨ isSyncStart (peekT [⟨.SEMICOLON, ";", none, 1⟩, ⟨.EOF, "", none, 1⟩] posN).t = true) :=
  c3_recovery_amended.1 3 [⟨.SEMICOLON, ";", none, 1⟩, ⟨.EOF, "", none, 1⟩] 1
    (by decide) (by decide) (by decide)

/-- C4: the spec claims a missing `for` initializer is simply omitted, so
`for (;;) ...` and `for (; c;) ...` parse.  In the code the initializer
arm always parses either a `var` declaration or an expression statement
(the `None` path of the final `if let` is dead code), so both forms fail
at the first `;` with "Expected expression.". -/
theorem c4_for_missing_initializer :
    ((scanTokensF 100 ("for (;;) print 1;".toList)).map (fun toks => declarationF 100 toks 0)
       = some (some (.err "Expected expression." 2)))
    ∧ ((scanTokensF 100 ("for (; c;) print 1;".toList)).map (fun toks => declarationF 100 toks 0)
       = some (some (.err "Expected expression." 2))) :=
  ⟨by rfl, by rfl⟩

/-- C10: the claim says `Parser::parse` returns normally on every
EOF-terminated token sequence; but when the very first token fails to
parse (source `)`), `synchronize` is entered with the cursor still at 0
and `previous()` panics ("Previous token is empty"). -/
theorem c10_parse_panic :
    pipeParseF 100 (")".toList) = some .panicked := by
  rfl
